import Mathlib

/-!
Shallow embedding of `src/ui/viewmodel/loading_view.cpp` (class `LoadingViewModel`
of the Beam wallet UI), together with proofs about the progress/estimate logic.

Modelling conventions:
* C++ `double` values (progress fractions, estimate seconds) are modelled as `ℚ`;
  the one place where IEEE semantics of a zero denominator matters (the dampening
  test `estimateSeconds / m_lastEstimateSeconds > 2`) is modelled explicitly by
  `divGtTwo` below.
* C++ `int` counters are modelled as `ℤ` (no claim exercises 32-bit overflow).
* `beam::Timestamp` is declared outside `src/`; modelled from the spec (§3, §4.2
  Step 1) as integer seconds with mathematical subtraction.  Under the actual
  unsigned 64-bit type a negative difference would wrap and then be capped at
  `kMaxEstimate`; under either reading a backwards clock step never yields 0.
* `QString` messages are modelled structurally (`ProgressMessage`): the message
  built by `updateProgress` is a base text plus optional percent and estimate
  parts, compared by structural equality exactly as the code compares QStrings.
* Qt signal emissions are returned as an ordered `List Signal`.
-/

set_option linter.unusedVariables false

/-- Error kinds. Modelled from the spec: `beam::wallet::ErrorType` is declared
outside `src/`; the spec (§3) calls it a closed enumeration of externally-sourced
error kinds.  The four kinds named by the classifier in `onGetWalletError` appear
verbatim; `connectionTimedOut` and `internalNodeStartFailed` stand for the spec's
"any other kind not explicitly mapped". -/
inductive ErrorType
  | nodeProtocolIncompatible
  | connectionAddrInUse
  | connectionRefused
  | hostResolvedError
  | connectionTimedOut
  | internalNodeStartFailed
  deriving DecidableEq, Repr

/-- The Qt signals `LoadingViewModel` can emit.  `syncCompletedWithError` is the
outbound signal named by the spec (§6); the source never emits it and is included
only so that statements about it can be made. -/
inductive Signal
  | syncCompleted
  | syncCompletedWithError
  | progressChanged
  | progressMessageChanged
  | walletError (title : String) (description : String)
  | isCreatingChanged
  | walletReseted
  deriving DecidableEq, Repr

/-- The rendered " Estimate time: %.0lf <units>" substring produced by
`getEstimateStr`: the `ceil`-ed value and whether the unit is minutes ("min.")
or seconds ("sec."). -/
structure EtaText where
  value : ℚ
  minutes : Bool
  deriving DecidableEq, Repr

/-- The base text `progressMessage` is assigned in the branches of
`updateProgress`: `""`, `"Downloading blocks"`, or `"Scanning UTXO %d/%d"`
with the two counters. -/
inductive MsgBase
  | empty
  | downloadingBlocks
  | scanningUtxo (done total : ℤ)
  deriving DecidableEq, Repr

/-- Structural model of the QString built by `updateProgress`: the base text,
then (only when `progress > 0`) an appended " %.2lf%%" part carrying
`progress * 100` and the appended estimate substring. -/
structure ProgressMessage where
  base : MsgBase
  percent : Option ℚ
  eta : Option EtaText
  deriving DecidableEq, Repr

/-- The member state of `LoadingViewModel`.  `m_hasLocalNode` is read from
settings again on every `updateProgress` call in the source, so it is passed as
a parameter `bLocalNode` rather than stored. -/
structure St where
  progress : ℚ
  nodeTotal : ℤ
  nodeDone : ℤ
  total : ℤ
  done : ℤ
  isCreating : Bool
  progressMessage : ProgressMessage
  lastProgress : ℚ
  lastEstimateSeconds : ℚ
  updateTimestamp : ℤ
  lastUpdateTimestamp : ℤ
  deriving DecidableEq, Repr

/-- Initial state: the constructor initialises `m_progress{0.0}` and the four
counters to 0 and `m_isCreating{false}`; the remaining members are declared in
the header (outside `src/`), which per the spec (§3, EstimateState "reset only
at construction") start at zero / empty. -/
def init : St :=
  { progress := 0, nodeTotal := 0, nodeDone := 0, total := 0, done := 0,
    isCreating := false,
    progressMessage := { base := .empty, percent := none, eta := none },
    lastProgress := 0, lastEstimateSeconds := 0,
    updateTimestamp := 0, lastUpdateTimestamp := 0 }

/-- `kMaxEstimate = 2 * 60 * 60` (anonymous namespace, line 25). -/
def kMaxEstimate : ℤ := 2 * 60 * 60

/-- `kSecondsInMinute = 60.` (anonymous namespace, line 26). -/
def kSecondsInMinute : ℚ := 60

/-- Phases of the sync display, per the spec's Phase Selector contract (§4.1):
the source has no reified phase value; the Downloading phase is the branch of
`updateProgress` that shows "Downloading blocks". -/
inductive Phase
  | downloading
  | scanning
  deriving DecidableEq, Repr

/-- Result of the phase-selection part of `updateProgress` (lines 78-107):
the branch taken, the computed raw `progress` candidate, the base message text
assigned in that branch, and the signals emitted there (`syncCompleted` when
the scanning branch sees `done >= total`). -/
structure PhaseSel where
  phase : Phase
  rawFraction : ℚ
  base : MsgBase
  signals : List Signal
  deriving DecidableEq, Repr

/-- Lines 78-107 of `updateProgress`: choose Downloading when
`bLocalNode && (!m_nodeTotal || m_nodeDone < m_nodeTotal)` and compute
`progress = m_nodeTotal > 0 ? min(1., m_nodeDone / m_nodeTotal) : 0`;
otherwise compute the scan fraction the same way from `m_done / m_total`, and
either set the scanning message (`m_done < m_total`) or emit `syncCompleted`. -/
def selectPhase (bLocalNode : Bool) (s : St) : PhaseSel :=
  if bLocalNode = true ∧ (s.nodeTotal = 0 ∨ s.nodeDone < s.nodeTotal) then
    { phase := .downloading,
      rawFraction := if s.nodeTotal > 0 then min 1 ((s.nodeDone : ℚ) / (s.nodeTotal : ℚ)) else 0,
      base := .downloadingBlocks,
      signals := [] }
  else
    { phase := .scanning,
      rawFraction := if s.total > 0 then min 1 ((s.done : ℚ) / (s.total : ℚ)) else 0,
      base := if s.done < s.total then .scanningUtxo s.done s.total else .empty,
      signals := if s.done < s.total then [] else [.syncCompleted] }

/-- `getSecondsFromLastUpdate` (lines 120-128): records `m_updateTimestamp = now`,
takes the difference against the previous `m_lastUpdateTimestamp`, overwrites
`m_lastUpdateTimestamp`, and caps the difference above at `kMaxEstimate`. -/
def getSecondsFromLastUpdate (now : ℤ) (s : St) : St × ℤ :=
  let timeDiff := now - s.lastUpdateTimestamp
  ({ s with updateTimestamp := now, lastUpdateTimestamp := now },
   if timeDiff > kMaxEstimate then kMaxEstimate else timeDiff)

/-- The divisor of the rate projection: the subexpression
`(progress - m_lastProgress)` of line 135. -/
def estimateDivisor (s : St) (progress : ℚ) : ℚ :=
  progress - s.lastProgress

/-- IEEE-faithful reading of the C++ test `e / l > 2` on doubles when `l` may
be zero: `x / 0` is `+inf` (greater than 2) exactly when `x > 0`, and `NaN` or
`-inf` (not greater) otherwise; for `l ≠ 0` it is the exact rational test. -/
def divGtTwo (e l : ℚ) : Bool :=
  if l = 0 then decide (0 < e) else decide (2 < e / l)

/-- `getEstimateStr` (lines 130-164): computes the raw
`estimateSeconds = secondsFromLastUpdate / (progress - m_lastProgress)`,
dampens it by averaging with `m_lastEstimateSeconds` when the ratio exceeds 2,
stores the result into `m_lastEstimateSeconds`, and renders it in minutes
(`ceil(estimateSeconds / 60)`) when above a minute, else in seconds
(`ceil(estimateSeconds)`, with 1 as floor for non-positive values). -/
def getEstimateStr (secondsFromLastUpdate : ℤ) (progress : ℚ) (s : St) : St × EtaText :=
  let rawEstimate : ℚ := (secondsFromLastUpdate : ℚ) / estimateDivisor s progress
  let estimateSeconds : ℚ :=
    if divGtTwo rawEstimate s.lastEstimateSeconds then
      (rawEstimate + s.lastEstimateSeconds) / 2
    else rawEstimate
  let s := { s with lastEstimateSeconds := estimateSeconds }
  if estimateSeconds > kSecondsInMinute then
    (s, { value := (⌈estimateSeconds / kSecondsInMinute⌉ : ℤ), minutes := true })
  else
    (s, { value := if estimateSeconds > 0 then ((⌈estimateSeconds⌉ : ℤ) : ℚ) else 1,
          minutes := false })

/-- `setProgress` (lines 171-179): the ratchet.  Adopts `value` and fires
`progressChanged` only when strictly greater than `m_progress`, recording the
previous value in `m_lastProgress`. -/
def setProgress (value : ℚ) (s : St) : St × List Signal :=
  if value > s.progress then
    ({ s with lastProgress := s.progress, progress := value }, [.progressChanged])
  else (s, [])

/-- `setProgressMessage` (lines 186-193): stores and fires
`progressMessageChanged` only when the new value differs from the stored one. -/
def setProgressMessage (value : ProgressMessage) (s : St) : St × List Signal :=
  if s.progressMessage ≠ value then
    ({ s with progressMessage := value }, [.progressMessageChanged])
  else (s, [])

/-- `setIsCreating` (lines 195-202). -/
def setIsCreating (value : Bool) (s : St) : St × List Signal :=
  if s.isCreating ≠ value then
    ({ s with isCreating := value }, [.isCreatingChanged])
  else (s, [])

/-- `updateProgress` (lines 76-118): phase selection, then
`getSecondsFromLastUpdate`, then — whenever `progress > 0` — the percent and
estimate parts are appended to the message via `getEstimateStr`, and finally
the message and fraction setters run. -/
def updateProgress (bLocalNode : Bool) (now : ℤ) (s : St) : St × List Signal :=
  let sel := selectPhase bLocalNode s
  let r1 := getSecondsFromLastUpdate now s
  let r2 :=
    if sel.rawFraction > 0 then
      let r := getEstimateStr r1.2 sel.rawFraction r1.1
      (r.1, { base := sel.base, percent := some (sel.rawFraction * 100),
              eta := some r.2 : ProgressMessage })
    else
      (r1.1, { base := sel.base, percent := none, eta := none : ProgressMessage })
  let r3 := setProgressMessage r2.2 r2.1
  let r4 := setProgress sel.rawFraction r3.1
  (r4.1, sel.signals ++ r3.2 ++ r4.2)

/-- `onSyncProgressUpdated` (lines 53-58): store the scan counters, then
`updateProgress`. -/
def onSyncProgressUpdated (done total : ℤ) (bLocalNode : Bool) (now : ℤ) (s : St) :
    St × List Signal :=
  updateProgress bLocalNode now { s with done := done, total := total }

/-- `onNodeSyncProgressUpdated` (lines 60-65): store the node counters, then
`updateProgress`. -/
def onNodeSyncProgressUpdated (done total : ℤ) (bLocalNode : Bool) (now : ℤ) (s : St) :
    St × List Signal :=
  updateProgress bLocalNode now { s with nodeDone := done, nodeTotal := total }

/-- Result of `onGetWalletError`: the final state, signals in emission order,
and whether `assert(false && "Unsupported error code!")` was reached (line 234
— an abnormal termination when assertions are enabled; the spec §9 describes
this branch as the source aborting). -/
structure ErrResult where
  state : St
  signals : List Signal
  aborted : Bool
  deriving Repr

/-- `onGetWalletError` (lines 213-252).  In creation mode the four mapped kinds
emit one `walletError` (title per case, description
`m_walletModel.GetErrorString(error)` passed through unmodified, modelled by
`errStr`) and return; any other kind hits `assert(false)` (modelled as
`aborted := true`, the assertion-enabled semantics).  Otherwise (normal mode)
`ConnectionAddrInUse` emits one `walletError` and returns, and every other kind
falls through to `updateProgress()` followed by `emit syncCompleted()`. -/
def onGetWalletError (errStr : ErrorType → String) (bLocalNode : Bool) (now : ℤ)
    (error : ErrorType) (s : St) : ErrResult :=
  if s.isCreating = true then
    match error with
    | .nodeProtocolIncompatible =>
        { state := s,
          signals := [.walletError "loading-view-protocol-error" (errStr error)],
          aborted := false }
    | .connectionAddrInUse | .connectionRefused | .hostResolvedError =>
        { state := s,
          signals := [.walletError "loading-view-connection-error" (errStr error)],
          aborted := false }
    | _ => { state := s, signals := [], aborted := true }
  else
    match error with
    | .connectionAddrInUse =>
        { state := s,
          signals := [.walletError "loading-view-connection-error" (errStr error)],
          aborted := false }
    | _ =>
        let r := updateProgress bLocalNode now s
        { state := r.1, signals := r.2 ++ [.syncCompleted], aborted := false }

/-- The inbound events the component handles (spec §6); `bLocalNode` and `now`
are the values the handler would read from settings and the clock during that
event. -/
inductive Event
  | nodeProgress (done total : ℤ) (bLocalNode : Bool) (now : ℤ)
  | scanProgress (done total : ℤ) (bLocalNode : Bool) (now : ℤ)
  | walletErr (e : ErrorType) (bLocalNode : Bool) (now : ℤ)
  | creatingChanged (b : Bool)

/-- One event step of the component. -/
def step (errStr : ErrorType → String) (s : St) : Event → St
  | .nodeProgress d t b n => (onNodeSyncProgressUpdated d t b n s).1
  | .scanProgress d t b n => (onSyncProgressUpdated d t b n s).1
  | .walletErr e b n => (onGetWalletError errStr b n e s).state
  | .creatingChanged b => (setIsCreating b s).1

/-- Run the component from construction through a list of events. -/
def run (errStr : ErrorType → String) (l : List Event) : St :=
  l.foldl (step errStr) init

/-- The state after the first event of the zero-divisor scenario: scan update
(done 3, total 10) at time 0, local node off, from the initial state.  The raw
fraction 3/10 is adopted; the raw estimate is 0/(3/10) = 0, stored undampened. -/
def c1s1 : St :=
  { progress := 3/10, nodeTotal := 0, nodeDone := 0, total := 10, done := 3,
    isCreating := false,
    progressMessage := { base := .scanningUtxo 3 10, percent := some 30,
                         eta := some { value := 1, minutes := false } },
    lastProgress := 0, lastEstimateSeconds := 0,
    updateTimestamp := 0, lastUpdateTimestamp := 0 }

/-- The state after the second event of the zero-divisor scenario: scan update
(done 5, total 10) at time 20.  The fraction 1/2 is adopted, `m_lastProgress`
becomes 3/10, and the estimate 20/(1/2) = 40 is dampened against the previous
0 to 20. -/
def c1s2 : St :=
  { progress := 1/2, nodeTotal := 0, nodeDone := 0, total := 10, done := 5,
    isCreating := false,
    progressMessage := { base := .scanningUtxo 5 10, percent := some 50,
                         eta := some { value := 20, minutes := false } },
    lastProgress := 3/10, lastEstimateSeconds := 20,
    updateTimestamp := 20, lastUpdateTimestamp := 20 }

/-! ## Helper lemmas -/

theorem setProgress_fst_progress (v : ℚ) (s : St) :
    ((setProgress v s).1).progress = if s.progress < v then v else s.progress := by
  unfold setProgress
  split <;> simp_all

theorem setProgress_fst_of_fields (v : ℚ) (s : St) :
    ((setProgress v s).1).progressMessage = s.progressMessage ∧
    ((setProgress v s).1).lastUpdateTimestamp = s.lastUpdateTimestamp ∧
    ((setProgress v s).1).lastEstimateSeconds = s.lastEstimateSeconds ∧
    ((setProgress v s).1).isCreating = s.isCreating := by
  unfold setProgress
  split <;> simp_all

theorem setProgressMessage_fst_progress (v : ProgressMessage) (s : St) :
    ((setProgressMessage v s).1).progress = s.progress := by
  unfold setProgressMessage
  split <;> rfl

theorem setProgressMessage_fst_lastUpdateTimestamp (v : ProgressMessage) (s : St) :
    ((setProgressMessage v s).1).lastUpdateTimestamp = s.lastUpdateTimestamp := by
  unfold setProgressMessage
  split <;> rfl

theorem getEstimateStr_fst (a : ℤ) (p : ℚ) (s : St) :
    (getEstimateStr a p s).1 =
      { s with lastEstimateSeconds :=
          if divGtTwo ((a : ℚ) / estimateDivisor s p) s.lastEstimateSeconds then
            (((a : ℚ) / estimateDivisor s p) + s.lastEstimateSeconds) / 2
          else ((a : ℚ) / estimateDivisor s p) } := by
  simp only [getEstimateStr]
  split <;> split <;> rfl

theorem setProgress_of_gt (v : ℚ) (s : St) (h : s.progress < v) :
    setProgress v s = ({ s with lastProgress := s.progress, progress := v },
      [.progressChanged]) := by
  unfold setProgress
  rw [if_pos h]

theorem setProgress_of_le (v : ℚ) (s : St) (h : ¬ s.progress < v) :
    setProgress v s = (s, []) := by
  unfold setProgress
  rw [if_neg h]

theorem setProgressMessage_of_ne (v : ProgressMessage) (s : St) (h : s.progressMessage ≠ v) :
    setProgressMessage v s = ({ s with progressMessage := v },
      [.progressMessageChanged]) := by
  unfold setProgressMessage
  rw [if_pos h]

theorem syncCompleted_not_mem_setProgress (v : ℚ) (s : St) :
    Signal.syncCompleted ∉ (setProgress v s).2 := by
  unfold setProgress
  split <;> simp

theorem syncCompleted_not_mem_setProgressMessage (v : ProgressMessage) (s : St) :
    Signal.syncCompleted ∉ (setProgressMessage v s).2 := by
  unfold setProgressMessage
  split <;> simp

theorem updateProgress_fst_progress (b : Bool) (n : ℤ) (s : St) :
    ((updateProgress b n s).1).progress =
      if s.progress < (selectPhase b s).rawFraction then (selectPhase b s).rawFraction
      else s.progress := by
  simp only [updateProgress]
  split
  · rw [setProgress_fst_progress, setProgressMessage_fst_progress, getEstimateStr_fst]
    simp [getSecondsFromLastUpdate]
  · rw [setProgress_fst_progress, setProgressMessage_fst_progress]
    simp [getSecondsFromLastUpdate]

theorem updateProgress_fst_lastUpdateTimestamp (b : Bool) (n : ℤ) (s : St) :
    ((updateProgress b n s).1).lastUpdateTimestamp = n := by
  simp only [updateProgress]
  split
  · rw [(setProgress_fst_of_fields _ _).2.1, setProgressMessage_fst_lastUpdateTimestamp,
      getEstimateStr_fst]
    simp [getSecondsFromLastUpdate]
  · rw [(setProgress_fst_of_fields _ _).2.1, setProgressMessage_fst_lastUpdateTimestamp]
    simp [getSecondsFromLastUpdate]

theorem selectPhase_rawFraction_le_one (b : Bool) (s : St) :
    (selectPhase b s).rawFraction ≤ 1 := by
  unfold selectPhase
  split <;> dsimp only <;> split <;> simp [min_le_left]

theorem updateProgress_syncCompleted_mem (b : Bool) (n : ℤ) (s : St) :
    Signal.syncCompleted ∈ (updateProgress b n s).2 ↔
      Signal.syncCompleted ∈ (selectPhase b s).signals := by
  simp only [updateProgress, List.mem_append]
  constructor
  · rintro ((h | h) | h)
    · exact h
    · exact absurd h (syncCompleted_not_mem_setProgressMessage _ _)
    · exact absurd h (syncCompleted_not_mem_setProgress _ _)
  · exact fun h => Or.inl (Or.inl h)

theorem setIsCreating_fst_progress (v : Bool) (s : St) :
    ((setIsCreating v s).1).progress = s.progress := by
  unfold setIsCreating
  split <;> rfl

theorem onGetWalletError_state_cases (errStr : ErrorType → String) (b : Bool) (n : ℤ)
    (e : ErrorType) (s : St) :
    (onGetWalletError errStr b n e s).state = s ∨
    (onGetWalletError errStr b n e s).state = (updateProgress b n s).1 := by
  unfold onGetWalletError
  split <;> cases e <;> simp

theorem updateProgress_progress_bounds (b : Bool) (n : ℤ) (s : St)
    (h0 : 0 ≤ s.progress) (h1 : s.progress ≤ 1) :
    0 ≤ ((updateProgress b n s).1).progress ∧ ((updateProgress b n s).1).progress ≤ 1 := by
  rw [updateProgress_fst_progress]
  split
  · exact ⟨le_of_lt (lt_of_le_of_lt h0 (by assumption)), selectPhase_rawFraction_le_one b s⟩
  · exact ⟨h0, h1⟩

theorem step_progress_bounds (errStr : ErrorType → String) (s : St) (e : Event)
    (h0 : 0 ≤ s.progress) (h1 : s.progress ≤ 1) :
    0 ≤ (step errStr s e).progress ∧ (step errStr s e).progress ≤ 1 := by
  cases e with
  | nodeProgress d t b n => exact updateProgress_progress_bounds b n _ h0 h1
  | scanProgress d t b n => exact updateProgress_progress_bounds b n _ h0 h1
  | walletErr er b n =>
      rcases onGetWalletError_state_cases errStr b n er s with h | h
      · simp only [step, h]; exact ⟨h0, h1⟩
      · simp only [step, h]; exact updateProgress_progress_bounds b n s h0 h1
  | creatingChanged bb =>
      simp only [step, setIsCreating_fst_progress]; exact ⟨h0, h1⟩

/-! ## Claim theorems -/

/-- C4: for any sequence of `setProgress` calls with arbitrary values, the stored
fraction after each call is non-decreasing: a value not strictly greater than the
current fraction leaves state and signals unchanged (no notification), while a
strictly greater value is adopted and fires exactly one `progressChanged`. -/
theorem c4_setProgress_ratchet :
    (∀ (s : St) (v : ℚ), ¬ s.progress < v → setProgress v s = (s, [])) ∧
    (∀ (s : St) (v : ℚ), s.progress < v →
      ((setProgress v s).1).progress = v ∧
      (setProgress v s).2 = [Signal.progressChanged]) ∧
    (∀ (s : St) (v : ℚ), s.progress ≤ ((setProgress v s).1).progress) := by
  refine ⟨fun s v h => ?_, fun s v h => ?_, fun s v => ?_⟩
  · unfold setProgress
    rw [if_neg h]
  · unfold setProgress
    rw [if_pos h]
    exact ⟨rfl, rfl⟩
  · rw [setProgress_fst_progress]
    split
    · exact le_of_lt (by assumption)
    · exact le_refl _

/-- C4 witness: the ratchet at concrete inputs — `setProgress 0` on the initial
state is a no-op, `setProgress (1/2)` adopts the value with exactly one
`progressChanged`, and the fraction never decreases. -/
theorem c4_setProgress_ratchet_witness :
    setProgress 0 init = (init, []) ∧
    (((setProgress (1/2) init).1).progress = 1/2 ∧
      (setProgress (1/2) init).2 = [Signal.progressChanged]) ∧
    init.progress ≤ ((setProgress (1/2) init).1).progress :=
  ⟨c4_setProgress_ratchet.1 init 0 (by norm_num [init]),
   c4_setProgress_ratchet.2.1 init (1/2) (by norm_num [init]),
   c4_setProgress_ratchet.2.2 init (1/2)⟩

/-- C8: `setProgressMessage x` with the stored message already equal to `x` is a
no-op with no notification; with a different stored message it stores `x` and
fires exactly one `progressMessageChanged`; hence two consecutive calls with the
same `x` (starting from a different stored message) fire exactly one
notification in total. -/
theorem c8_setProgressMessage_dedup :
    (∀ (s : St) (x : ProgressMessage), s.progressMessage = x →
      setProgressMessage x s = (s, [])) ∧
    (∀ (s : St) (x : ProgressMessage), s.progressMessage ≠ x →
      ((setProgressMessage x s).1).progressMessage = x ∧
      (setProgressMessage x s).2 = [Signal.progressMessageChanged]) ∧
    (∀ (s : St) (x : ProgressMessage), s.progressMessage ≠ x →
      (setProgressMessage x s).2 ++ (setProgressMessage x ((setProgressMessage x s).1)).2 =
        [Signal.progressMessageChanged]) := by
  refine ⟨fun s x h => ?_, fun s x h => ?_, fun s x h => ?_⟩
  · unfold setProgressMessage
    rw [if_neg (by simp [h])]
  · unfold setProgressMessage
    rw [if_pos h]
    exact ⟨rfl, rfl⟩
  · unfold setProgressMessage
    rw [if_pos h]
    simp

/-- C8 witness: at a concrete message differing from the initial one, two
consecutive `setProgressMessage` calls fire exactly one notification, the first
call stores the value with one notification, and a call with the already-stored
value is a no-op. -/
theorem c8_setProgressMessage_dedup_witness :
    setProgressMessage { base := .empty, percent := none, eta := none } init = (init, []) ∧
    (((setProgressMessage { base := .downloadingBlocks, percent := none, eta := none } init).1).progressMessage
        = { base := .downloadingBlocks, percent := none, eta := none } ∧
      (setProgressMessage { base := .downloadingBlocks, percent := none, eta := none } init).2
        = [Signal.progressMessageChanged]) ∧
    (setProgressMessage { base := .downloadingBlocks, percent := none, eta := none } init).2 ++
        (setProgressMessage { base := .downloadingBlocks, percent := none, eta := none }
          ((setProgressMessage { base := .downloadingBlocks, percent := none, eta := none } init).1)).2
      = [Signal.progressMessageChanged] :=
  ⟨c8_setProgressMessage_dedup.1 init _ (by decide),
   c8_setProgressMessage_dedup.2.1 init _ (by decide),
   c8_setProgressMessage_dedup.2.2 init _ (by decide)⟩

/-- C9: the exposed fraction always lies in [0,1]: it starts at 0, every raw
candidate computed by `updateProgress` is capped at 1 by the `min` with 1, and
after any sequence of handled events the stored fraction is in [0,1] (candidates
not strictly above the current value, including negative ones from negative
counters, are dropped by the ratchet). -/
theorem c9_progress_in_unit_interval :
    init.progress = 0 ∧
    (∀ (b : Bool) (s : St), (selectPhase b s).rawFraction ≤ 1) ∧
    (∀ (errStr : ErrorType → String) (l : List Event),
      0 ≤ (run errStr l).progress ∧ (run errStr l).progress ≤ 1) := by
  refine ⟨rfl, selectPhase_rawFraction_le_one, fun errStr l => ?_⟩
  suffices h : ∀ (s : St), 0 ≤ s.progress → s.progress ≤ 1 →
      0 ≤ (l.foldl (step errStr) s).progress ∧ (l.foldl (step errStr) s).progress ≤ 1 by
    exact h init (le_refl 0) (by norm_num [init])
  induction l with
  | nil => exact fun s h0 h1 => ⟨h0, h1⟩
  | cons e t ih =>
      intro s h0 h1
      rcases step_progress_bounds errStr s e h0 h1 with ⟨g0, g1⟩
      exact ih (step errStr s e) g0 g1

/-- C5: with a local node and (node total 0 or node not done) the Downloading
branch is taken with `rawFraction = nodeTotal > 0 ? min(1, nodeDone/nodeTotal) : 0`
and no completion is signalled; otherwise the Scanning branch computes the
fraction the same way from the scan counters and emits `syncCompleted` exactly
when `done >= total`. -/
theorem c5_phase_selection (b : Bool) (now : ℤ) (s : St) :
    (b = true ∧ (s.nodeTotal = 0 ∨ s.nodeDone < s.nodeTotal) →
      selectPhase b s =
        { phase := .downloading,
          rawFraction := if s.nodeTotal > 0 then min 1 ((s.nodeDone : ℚ) / (s.nodeTotal : ℚ)) else 0,
          base := .downloadingBlocks, signals := [] } ∧
      Signal.syncCompleted ∉ (updateProgress b now s).2) ∧
    (¬ (b = true ∧ (s.nodeTotal = 0 ∨ s.nodeDone < s.nodeTotal)) →
      (selectPhase b s).phase = .scanning ∧
      (selectPhase b s).rawFraction =
        (if s.total > 0 then min 1 ((s.done : ℚ) / (s.total : ℚ)) else 0) ∧
      (s.total ≤ s.done → Signal.syncCompleted ∈ (updateProgress b now s).2) ∧
      (s.done < s.total → Signal.syncCompleted ∉ (updateProgress b now s).2)) := by
  constructor
  · intro h
    have hsel : selectPhase b s =
        { phase := .downloading,
          rawFraction := if s.nodeTotal > 0 then min 1 ((s.nodeDone : ℚ) / (s.nodeTotal : ℚ)) else 0,
          base := .downloadingBlocks, signals := [] } := by
      unfold selectPhase
      rw [if_pos h]
    refine ⟨hsel, ?_⟩
    rw [updateProgress_syncCompleted_mem, hsel]
    simp
  · intro h
    have hsel : selectPhase b s =
        { phase := .scanning,
          rawFraction := if s.total > 0 then min 1 ((s.done : ℚ) / (s.total : ℚ)) else 0,
          base := if s.done < s.total then .scanningUtxo s.done s.total else .empty,
          signals := if s.done < s.total then [] else [.syncCompleted] } := by
      unfold selectPhase
      rw [if_neg h]
    refine ⟨by rw [hsel], by rw [hsel], fun hd => ?_, fun hd => ?_⟩
    · rw [updateProgress_syncCompleted_mem, hsel]
      simp [not_lt.mpr hd]
    · rw [updateProgress_syncCompleted_mem, hsel]
      simp [hd]

/-- C5 witness: the spec's own examples — node 5/10 with a local node selects
Downloading with fraction 1/2 and no completion, and scan 10/10 without an
active download emits `syncCompleted`. -/
theorem c5_phase_selection_witness :
    (selectPhase true { init with nodeDone := 5, nodeTotal := 10 } =
      { phase := .downloading, rawFraction := if (10:ℤ) > 0 then min 1 ((5:ℚ)/(10:ℚ)) else 0,
        base := .downloadingBlocks, signals := [] } ∧
      Signal.syncCompleted ∉
        (updateProgress true 0 { init with nodeDone := 5, nodeTotal := 10 }).2) ∧
    Signal.syncCompleted ∈ (updateProgress false 0 { init with done := 10, total := 10 }).2 :=
  ⟨(c5_phase_selection true 0 { init with nodeDone := 5, nodeTotal := 10 }).1
      ⟨rfl, Or.inr (by norm_num)⟩,
   ((c5_phase_selection false 0 { init with done := 10, total := 10 }).2
      (by simp)).2.2.1 (by norm_num)⟩

/-- C7: whenever an estimate is computed with a non-zero stored
`lastEstimateSeconds`, the newly stored value is the arithmetic mean of the raw
estimate and the stored one when their ratio exceeds 2, and the raw estimate
as-is otherwise. -/
theorem c7_estimate_dampening (s : St) (secs : ℤ) (progress : ℚ)
    (h : s.lastEstimateSeconds ≠ 0) :
    ((getEstimateStr secs progress s).1).lastEstimateSeconds =
      if 2 < ((secs : ℚ) / (progress - s.lastProgress)) / s.lastEstimateSeconds then
        (((secs : ℚ) / (progress - s.lastProgress)) + s.lastEstimateSeconds) / 2
      else (secs : ℚ) / (progress - s.lastProgress) := by
  rw [getEstimateStr_fst]
  simp only [estimateDivisor, divGtTwo, if_neg h, decide_eq_true_eq]

/-- C7 witness: the spec's dampening example — stored `lastEstimateSeconds = 10`
and a raw estimate of 50 (ratio 5 > 2) store (50+10)/2 = 30. -/
theorem c7_estimate_dampening_witness :
    ((getEstimateStr 50 1 { init with lastEstimateSeconds := 10 }).1).lastEstimateSeconds = 30 := by
  rw [c7_estimate_dampening { init with lastEstimateSeconds := 10 } 50 1 (by norm_num)]
  norm_num [init]

/-- C10: in creation mode each of the four mapped error kinds emits exactly one
`walletError` carrying the unmodified description, leaves the whole state (and
so the fraction, message and estimate state) unchanged, does not abort, and
emits no completion signal. -/
theorem c10_creation_mapped_frame (errStr : ErrorType → String) (b : Bool) (now : ℤ)
    (e : ErrorType) (s : St) (hc : s.isCreating = true)
    (he : e = .nodeProtocolIncompatible ∨ e = .connectionAddrInUse ∨
      e = .connectionRefused ∨ e = .hostResolvedError) :
    (onGetWalletError errStr b now e s).state = s ∧
    (onGetWalletError errStr b now e s).aborted = false ∧
    ((onGetWalletError errStr b now e s).signals =
        [Signal.walletError "loading-view-protocol-error" (errStr e)] ∨
      (onGetWalletError errStr b now e s).signals =
        [Signal.walletError "loading-view-connection-error" (errStr e)]) ∧
    Signal.syncCompleted ∉ (onGetWalletError errStr b now e s).signals ∧
    Signal.syncCompletedWithError ∉ (onGetWalletError errStr b now e s).signals := by
  rcases he with h | h | h | h <;> subst h <;>
    (unfold onGetWalletError
     rw [if_pos hc]
     exact ⟨rfl, rfl, by first | exact Or.inl rfl | exact Or.inr rfl, by simp, by simp⟩)

/-- C10 witness: a concrete creation-mode `ConnectionRefused` error emits one
connection-error `walletError` with the untouched description and changes
nothing else. -/
theorem c10_creation_mapped_frame_witness :
    (onGetWalletError (fun _ => "refused") false 0 .connectionRefused
        { init with isCreating := true }).state = { init with isCreating := true } ∧
    (onGetWalletError (fun _ => "refused") false 0 .connectionRefused
        { init with isCreating := true }).aborted = false ∧
    ((onGetWalletError (fun _ => "refused") false 0 .connectionRefused
        { init with isCreating := true }).signals =
        [Signal.walletError "loading-view-protocol-error" ((fun _ => "refused") ErrorType.connectionRefused)] ∨
      (onGetWalletError (fun _ => "refused") false 0 .connectionRefused
        { init with isCreating := true }).signals =
        [Signal.walletError "loading-view-connection-error" ((fun _ => "refused") ErrorType.connectionRefused)]) ∧
    Signal.syncCompleted ∉ (onGetWalletError (fun _ => "refused") false 0 .connectionRefused
        { init with isCreating := true }).signals ∧
    Signal.syncCompletedWithError ∉ (onGetWalletError (fun _ => "refused") false 0 .connectionRefused
        { init with isCreating := true }).signals :=
  c10_creation_mapped_frame (fun _ => "refused") false 0 .connectionRefused
    { init with isCreating := true } rfl (Or.inr (Or.inr (Or.inl rfl)))

/-- C1: code bug — `updateProgress` computes the estimate (line 113) for every
update with raw fraction > 0 *before* the `setProgress` ratchet runs, so a
non-advancing update does reach the rate projection.  Concretely: after scan
updates 3/10 (time 0) and 5/10 (time 20) with the local node off, the state is
`c1s2` (fraction 1/2, `m_lastProgress` 3/10, stored estimate 20); a third scan
update back to (done 3, total 10) has raw fraction 3/10 — positive, so
`getEstimateStr` is invoked, but not above the stored fraction 1/2 — and its
divisor `progress - m_lastProgress = 3/10 - 3/10` is 0: a division by zero.
The last conjunct shows the projection is recomputed by that non-advancing
update: the stored `m_lastEstimateSeconds` changes from 20 to the quotient of
the zero division (the junk value 0 in the rational model; in IEEE doubles the
stored value is infinite — under both semantics it is overwritten). -/
theorem c1_zero_divisor_reached :
    (onSyncProgressUpdated 3 10 false 0 init).1 = c1s1 ∧
    (onSyncProgressUpdated 5 10 false 20 c1s1).1 = c1s2 ∧
    c1s2.progress = 1/2 ∧ c1s2.lastProgress = 3/10 ∧ c1s2.lastEstimateSeconds = 20 ∧
    (selectPhase false { c1s2 with done := 3, total := 10 }).rawFraction = 3/10 ∧
    ((0:ℚ) < 3/10 ∧ ¬ c1s2.progress < 3/10) ∧
    estimateDivisor { c1s2 with done := 3, total := 10 } (3/10) = 0 ∧
    ((onSyncProgressUpdated 3 10 false 30 c1s2).1).lastEstimateSeconds = 0 := by
  refine ⟨?_, ?_, rfl, rfl, rfl, ?_, ⟨by norm_num, by norm_num [c1s2]⟩, ?_, ?_⟩
  · norm_num [onSyncProgressUpdated, updateProgress, selectPhase, getSecondsFromLastUpdate,
      getEstimateStr, estimateDivisor, divGtTwo,
      init, c1s1, kMaxEstimate, kSecondsInMinute, min_def]
    rw [setProgressMessage_of_ne _ _ (by simp)]
    rw [setProgress_of_gt _ _ (by norm_num)]
  · norm_num [onSyncProgressUpdated, updateProgress, selectPhase, getSecondsFromLastUpdate,
      getEstimateStr, estimateDivisor, divGtTwo,
      c1s1, c1s2, kMaxEstimate, kSecondsInMinute, min_def]
    rw [setProgressMessage_of_ne _ _ (by simp)]
    rw [setProgress_of_gt _ _ (by norm_num)]
  · norm_num [selectPhase, c1s2, min_def]
  · norm_num [estimateDivisor, c1s2]
  · norm_num [onSyncProgressUpdated, updateProgress, selectPhase, getSecondsFromLastUpdate,
      getEstimateStr, estimateDivisor, divGtTwo,
      c1s2, kMaxEstimate, kSecondsInMinute, min_def]
    rw [setProgressMessage_of_ne _ _ (by simp)]
    rw [setProgress_of_le _ _ (by norm_num)]

/-- C2 counterexample: in normal mode a `NodeProtocolIncompatible` error makes
the code emit the plain `syncCompleted` (twice here: once from the forced
`updateProgress` recomputation and once from the fall-through), and no
`syncCompletedWithError` signal is ever emitted — the claim's required signal
does not occur and the plain completion signal does. -/
theorem c2_counterexample :
    (onGetWalletError (fun _ => "err") false 0 .nodeProtocolIncompatible init).signals =
      [Signal.syncCompleted, Signal.syncCompleted] ∧
    Signal.syncCompletedWithError ∉
      (onGetWalletError (fun _ => "err") false 0 .nodeProtocolIncompatible init).signals := by
  have h : (onGetWalletError (fun _ => "err") false 0 .nodeProtocolIncompatible init).signals =
      [Signal.syncCompleted, Signal.syncCompleted] := rfl
  exact ⟨h, by rw [h]; simp⟩

/-- C2 (amended): in normal mode every error kind other than `AddrInUse` forces
a progress recomputation from the current counters and then emits the plain
completion signal `syncCompleted` — the code has no separate
`syncCompletedWithError` signal — and does not abort. -/
theorem c2_degraded_completion (errStr : ErrorType → String) (b : Bool) (now : ℤ)
    (e : ErrorType) (s : St) (hm : s.isCreating = false)
    (he : e ≠ .connectionAddrInUse) :
    onGetWalletError errStr b now e s =
      { state := (updateProgress b now s).1,
        signals := (updateProgress b now s).2 ++ [Signal.syncCompleted],
        aborted := false } := by
  unfold onGetWalletError
  rw [if_neg (by simp [hm])]
  cases e <;> first | exact absurd rfl he | rfl

/-- C2 witness: a concrete normal-mode `ConnectionTimedOut` error recomputes
progress and then emits the plain completion. -/
theorem c2_degraded_completion_witness :
    onGetWalletError (fun _ => "x") false 0 .connectionTimedOut init =
      { state := (updateProgress false 0 init).1,
        signals := (updateProgress false 0 init).2 ++ [Signal.syncCompleted],
        aborted := false } :=
  c2_degraded_completion (fun _ => "x") false 0 .connectionTimedOut init rfl (by decide)

/-- C3: code bug — in creation mode an error kind outside the four mapped ones
reaches `assert(false && "Unsupported error code!")` (line 234): the handler
aborts abnormally and surfaces no error notification at all (the code has no
`Unclassified` category), contradicting the claim that such kinds are surfaced
and never abort. -/
theorem c3_unmapped_kind_aborts :
    (onGetWalletError (fun _ => "boom") false 0 .connectionTimedOut
        { init with isCreating := true }).aborted = true ∧
    (onGetWalletError (fun _ => "boom") false 0 .connectionTimedOut
        { init with isCreating := true }).signals = [] ∧
    (onGetWalletError (fun _ => "boom") false 0 .internalNodeStartFailed
        { init with isCreating := true }).aborted = true :=
  ⟨rfl, rfl, rfl⟩

/-- C6 counterexample: at `now = 5` with stored `lastUpdateTimestamp = 10` the
code returns the raw difference -5 (only the upper cap at 7200 exists), not the
claimed clamp of the difference to [0, 7200], which is 0. -/
theorem c6_counterexample :
    (getSecondsFromLastUpdate 5 { init with lastUpdateTimestamp := 10 }).2 = -5 ∧
    max 0 (min (5 - (10:ℤ)) kMaxEstimate) = 0 ∧
    (getSecondsFromLastUpdate 5 { init with lastUpdateTimestamp := 10 }).2 ≠
      max 0 (min (5 - (10:ℤ)) kMaxEstimate) := by
  refine ⟨by decide, by decide, by decide⟩

/-- C6 (amended): on every progress update the elapsed time used for the
estimate equals `min(now - lastUpdateTimestamp, 7200)` — which, whenever the
clock did not step backwards, is the difference clamped to [0, 7200] — and
`lastUpdateTimestamp` is overwritten with `now` on every call, regardless of
whether the fraction advanced. -/
theorem c6_elapsed_capped (s : St) (now : ℤ) (h : s.lastUpdateTimestamp ≤ now) :
    (getSecondsFromLastUpdate now s).2 = min (now - s.lastUpdateTimestamp) kMaxEstimate ∧
    0 ≤ (getSecondsFromLastUpdate now s).2 ∧
    (getSecondsFromLastUpdate now s).2 ≤ kMaxEstimate ∧
    ((getSecondsFromLastUpdate now s).1).lastUpdateTimestamp = now ∧
    (∀ (b : Bool) (s2 : St), ((updateProgress b now s2).1).lastUpdateTimestamp = now) := by
  have h2 : (getSecondsFromLastUpdate now s).2 =
      if now - s.lastUpdateTimestamp > kMaxEstimate then kMaxEstimate
      else now - s.lastUpdateTimestamp := rfl
  refine ⟨?_, ?_, ?_, rfl, fun b s2 => updateProgress_fst_lastUpdateTimestamp b now s2⟩ <;>
    (rw [h2]
     simp only [kMaxEstimate, min_def] at *
     split <;> omega)

/-- C6 witness: concrete `now = 30` against stored `lastUpdateTimestamp = 10`
gives elapsed 20 = min(20, 7200) within [0, 7200], and the stored timestamp
becomes 30 — also after a full `updateProgress` whose fraction did not advance. -/
theorem c6_elapsed_capped_witness :
    (getSecondsFromLastUpdate 30 { init with lastUpdateTimestamp := 10 }).2 =
      min (30 - ({ init with lastUpdateTimestamp := 10 } : St).lastUpdateTimestamp) kMaxEstimate ∧
    0 ≤ (getSecondsFromLastUpdate 30 { init with lastUpdateTimestamp := 10 }).2 ∧
    (getSecondsFromLastUpdate 30 { init with lastUpdateTimestamp := 10 }).2 ≤ kMaxEstimate ∧
    ((getSecondsFromLastUpdate 30 { init with lastUpdateTimestamp := 10 }).1).lastUpdateTimestamp = 30 ∧
    ((updateProgress false 30 init).1).lastUpdateTimestamp = 30 := by
  have h := c6_elapsed_capped { init with lastUpdateTimestamp := 10 } 30 (by decide)
  exact ⟨h.1, h.2.1, h.2.2.1, h.2.2.2.1, h.2.2.2.2 false init⟩
